import Mathlib

/-!
Verification of the manim job runner (src/app.py, src/runner.py).

The embedding models the program's observable behaviour:
* `extract_log` — the line classifier of runner.py (lines 29-51), including the
  exact semantics of the two regular expressions it uses;
* `Registry` with `register`/`publish`/`unregister` — the process-wide
  `subscribers` dict (runner.py line 27) together with the queue operations
  performed by app.py's `event_gen` and runner.py's guarded `put` calls;
* `run_and_upload` — the publish-event sequence and the result of the job
  executor (runner.py lines 80-219); external effects (the manim subprocess,
  the storage upload HTTP call, the notification callback) are parameters of
  an `ExecEnv` record, since the source treats them as opaque collaborators;
* `event_gen` — the SSE streaming loop of app.py (lines 24-51), driven by an
  explicit list of events (a message arriving within the 30 s window, or the
  window elapsing);
* `runBody`/`runEndpoint` — the `/run` handler of app.py (lines 67-87),
  including its outer `except Exception` that converts every escaping
  exception, its own `HTTPException(400)` included, into a 500 response.
-/

/-! ### Python string primitives (over `String.data : List Char`) -/

/-- Characters stripped by Python's `str.strip()` (ASCII whitespace). -/
def isPyWS (c : Char) : Bool :=
  c = ' ' || c = '\t' || c = '\n' || c = '\r' || c = '\x0b' || c = '\x0c'

/-- Remove trailing whitespace characters. -/
def stripTrailing (l : List Char) : List Char :=
  (l.reverse.dropWhile isPyWS).reverse

/-- `str.strip()` on a character list. -/
def pyStripL (l : List Char) : List Char :=
  stripTrailing (l.dropWhile isPyWS)

/-- Python `str.strip()`. -/
def pyStrip (s : String) : String :=
  ⟨pyStripL s.data⟩

/-- Python `str.lower()` (ASCII case folding suffices for the messages here). -/
def pyLower (s : String) : String :=
  ⟨s.data.map Char.toLower⟩

/-- `needle` occurs as a contiguous substring of the second list
(Python's `needle in s`). -/
def hasInfix (needle : List Char) : List Char → Bool
  | [] => needle.isEmpty
  | c :: cs => needle.isPrefixOf (c :: cs) || hasInfix needle cs

/-- Python `needle in s` on strings. -/
def pyContains (needle s : String) : Bool :=
  hasInfix needle.data s.data

/-- Python `s.startswith(pre)`. -/
def pyStartsWith (pre s : String) : Bool :=
  pre.data.isPrefixOf s.data

/-! ### The two regular expressions of `extract_log`

`re.search(r"Animation (\d+)", line)` finds the leftmost occurrence of the
literal `Animation ` followed by at least one digit and captures the maximal
digit run.  `re.search(r"Animation (\d+):.*?(\d+)%\|", line)` additionally
requires a colon after the first (greedy, hence maximal) digit run and then —
lazily, so at the earliest possible position, without crossing a newline
(`.` does not match `\n`) — a maximal digit run immediately followed by `%|`.
`re.match(r".*Animation (\d+):.*?(\d+)%\|.*", line)` is the same except that
the leading `.*` confines the start of the `Animation` part to the first
newline-free prefix of the line; the trailing `.*` is vacuous for `re.match`.
-/

/-- The literal `Animation ` (with trailing space) of both patterns. -/
def animLit : List Char := "Animation ".data

/-- Try `Animation (\d+)` anchored at the head of the list; return the
captured digit run. -/
def matchAnimNumAt (l : List Char) : Option (List Char) :=
  if animLit.isPrefixOf l then
    let rest := l.drop animLit.length
    let ds := rest.takeWhile Char.isDigit
    if ds.isEmpty then none else some ds
  else none

/-- `re.search(r"Animation (\d+)", ·)`: leftmost match, maximal digit run. -/
def searchAnimNum : List Char → Option (List Char)
  | [] => none
  | c :: cs =>
    match matchAnimNumAt (c :: cs) with
    | some ds => some ds
    | none => searchAnimNum cs

/-- The lazy-then-greedy tail `.*?(\d+)%\|`: scan left to right (stopping at a
newline, which `.` cannot match) for the first position starting a maximal
digit run that is immediately followed by `%|`; capture that run. -/
def findPctRun : List Char → Option (List Char)
  | [] => none
  | c :: cs =>
    if c.isDigit then
      match (c :: cs).dropWhile Char.isDigit with
      | '%' :: '|' :: _ => some ((c :: cs).takeWhile Char.isDigit)
      | _ => findPctRun cs
    else if c = '\n' then none
    else findPctRun cs

/-- Try `Animation (\d+):.*?(\d+)%\|` anchored at the head of the list;
return both captures. -/
def matchAnimProgAt (l : List Char) : Option (List Char × List Char) :=
  if animLit.isPrefixOf l then
    let rest := l.drop animLit.length
    let ns := rest.takeWhile Char.isDigit
    if ns.isEmpty then none
    else
      match rest.dropWhile Char.isDigit with
      | ':' :: rest2 => (findPctRun rest2).map (fun ps => (ns, ps))
      | _ => none
  else none

/-- `re.search(r"Animation (\d+):.*?(\d+)%\|", ·)`: leftmost match. -/
def searchAnimProg : List Char → Option (List Char × List Char)
  | [] => none
  | c :: cs =>
    match matchAnimProgAt (c :: cs) with
    | some r => some r
    | none => searchAnimProg cs

/-- `re.match(r".*Animation (\d+):.*?(\d+)%\|.*", ·)` viewed as a Boolean
condition: a match must start within the first newline-free prefix. -/
def reMatchAnimProg : List Char → Bool
  | [] => false
  | c :: cs => (matchAnimProgAt (c :: cs)).isSome || (c ≠ '\n' && reMatchAnimProg cs)

/-! ### The log classifier (runner.py `extract_log`, lines 29-51) -/

/-- runner.py `extract_log`: map one raw manim output line to an optional
progress message.  The `try`/`except` wrapper of the source cannot fire
(none of the operations raise), so the function is the bare branch chain. -/
def extract_log (line : String) : Option String :=
  if pyContains "Animation" line && pyContains "Partial" line then
    match searchAnimNum line.data with
    | some ds => some ("Animation " ++ (⟨ds⟩ : String) ++ " loaded")
    | none => none
  else if reMatchAnimProg line.data then
    match searchAnimProg line.data with
    | some (ns, ps) =>
      some ("Animation " ++ (⟨ns⟩ : String) ++ " progress: " ++ (⟨ps⟩ : String) ++ "%")
    | none => none
  else if pyContains "File ready at" line then
    some "Final video ready!"
  else if pyContains "Rendered ArchitectureDiagram" line then
    some "Rendering complete!"
  else if pyContains "Played" line then
    some (pyStrip line)
  else if pyContains "ERROR" line || pyContains "Exception" line then
    some "Error occurred"
  else
    none

/-! ### Terminal messages

The spec's notion of a terminal message (§3): the completion sentinel,
compared case-insensitively on the whitespace-trimmed value, or a message
whose trimmed lowercase form begins with `error:`.  The streaming loop in
app.py (lines 38-43) implements the same idea but does not strip before the
`error:` prefix test; both predicates are kept. -/

/-- The completion sentinel published by runner.py line 187. -/
def completionSentinel : String := "Video generation completed!"

/-- Terminal message as the spec defines it: trimmed, lowercased, then either
equal to the completion sentinel or starting with `error:`. -/
def isTerminalClaim (m : String) : Bool :=
  pyLower (pyStrip m) == "video generation completed!"
    || pyStartsWith "error:" (pyLower (pyStrip m))

/-- The exit test of app.py's streaming loop (lines 38-43):
`msg.strip().lower() == "video generation completed!"` or
`msg.lower().startswith("error:")`. -/
def streamStop (m : String) : Bool :=
  pyLower (pyStrip m) == "video generation completed!"
    || pyStartsWith "error:" (pyLower m)

/-! ### Job channel registry (runner.py line 27 `subscribers`, plus the dict
operations performed by app.py and runner.py)

Queues are given numeric identities (`nextQ` counts the queues ever created)
so that replacing a queue is distinguishable from reusing it; `queues` keeps
the contents of every queue ever created, orphaned ones included, mirroring
the fact that a replaced `asyncio.Queue` object still exists. -/

structure Registry where
  nextQ : Nat
  subscribers : List (String × Nat)
  queues : List (Nat × List String)
deriving DecidableEq, Repr

/-- The initial state: `subscribers = {}`. -/
def emptyRegistry : Registry := ⟨0, [], []⟩

/-- app.py lines 25-26: `q = asyncio.Queue(); subscribers[conversationId] = q`.
A fresh queue is always created and the dict entry is overwritten. -/
def register (st : Registry) (id : String) : Nat × Registry :=
  let q := st.nextQ
  (q, { nextQ := q + 1
        subscribers := (id, q) :: st.subscribers.filter (fun p => !(p.1 == id))
        queues := (q, []) :: st.queues })

/-- Append a message to the queue with identity `q`. -/
def updateQ : List (Nat × List String) → Nat → String → List (Nat × List String)
  | [], _, _ => []
  | (k, ms) :: rest, q, msg =>
    if k == q then (k, ms ++ [msg]) :: rest else (k, ms) :: updateQ rest q msg

/-- runner.py's guarded publish
(`if conversation_id in subscribers: await subscribers[conversation_id].put(msg)`,
lines 109-110, 131-135, 179-180, 186-187, 213-217): enqueue on the registered
queue, silently do nothing when the job id has no queue. -/
def publish (st : Registry) (id msg : String) : Registry :=
  match st.subscribers.lookup id with
  | none => st
  | some q => { st with queues := updateQ st.queues q msg }

/-- app.py line 51: `subscribers.pop(conversationId, None)`. -/
def unregister (st : Registry) (id : String) : Registry :=
  { st with subscribers := st.subscribers.filter (fun p => !(p.1 == id)) }

/-! ### Job executor (runner.py `run_and_upload`, lines 80-219)

External effects are parameters: the subprocess's combined stdout lines (after
`decode`/`strip`, runner.py line 126), its exit code, whether the artifact
search (the `os.walk` over `media_dir` plus the alternative locations, lines
144-164) finds a file, and whether the storage upload succeeds.  `cpeStr` is
`str(CalledProcessError(return_code, cmd))` and `uploadErrStr` the text of the
exception `upload_to_supabase` raises — both are produced by the Python
runtime, so the model carries them abstractly.  The function returns the
result of the call together with the ordered sequence of publish events it
performs; the notification callback (lines 190-205) publishes nothing and
swallows its own failures, so it contributes nothing observable. -/

structure Config where
  supabase_url : String
  supabase_bucket : String
deriving DecidableEq, Repr

structure ExecEnv where
  lines : List String
  exitCode : Nat
  artifactFound : Bool
  uploadOk : Bool
  cpeStr : String
  uploadErrStr : String
deriving DecidableEq, Repr

/-- runner.py `upload_to_supabase` (lines 53-78): on success the public URL is
`{SUPABASE_URL}/storage/v1/object/public/{SUPABASE_BUCKET}/{filename}` with
`filename = f"{conversation_id}.mp4"`; on failure the exception propagates. -/
def upload_to_supabase (cfg : Config) (conversation_id : String) (env : ExecEnv) :
    Except String String :=
  if env.uploadOk then
    Except.ok (cfg.supabase_url ++ "/storage/v1/object/public/"
      ++ cfg.supabase_bucket ++ "/" ++ conversation_id ++ ".mp4")
  else
    Except.error env.uploadErrStr

/-- runner.py `run_and_upload` (lines 80-219): result and publish-event
sequence.  `code` is only written to the scratch script (it influences the
subprocess, i.e. `env`) and `json_data` is never used by the body. -/
def run_and_upload (cfg : Config) (conversation_id code : String)
    (json_data : List (String × String)) (env : ExecEnv) :
    Except String String × List String :=
  let progress := env.lines.filterMap extract_log
  let pre := "Starting video generation..." :: progress
  if env.exitCode ≠ 0 then
    (Except.error env.cpeStr, pre ++ ["Error: " ++ env.cpeStr])
  else if env.artifactFound = false then
    (Except.error "No video file was generated",
      pre ++ ["Error: No video file was generated"])
  else
    match upload_to_supabase cfg conversation_id env with
    | Except.error e =>
      (Except.error e, pre ++ ["Uploading video...", "Error: " ++ e])
    | Except.ok url =>
      (Except.ok url, pre ++ ["Uploading video...", completionSentinel])

/-! ### Streaming endpoint (app.py `event_gen`, lines 24-51)

One loop iteration either receives a queued message within the 30-second
window (`SEvent.msg`) or the window elapses (`SEvent.timeout`,
`asyncio.TimeoutError`).  The generator yields the frame first and then
breaks if the message is terminal.  The result pairs the yielded frames with
a flag telling whether the loop exited via `break` (stream closed) or the
event list was exhausted with the stream still open. -/

inductive SEvent where
  | msg (m : String)
  | timeout
deriving DecidableEq, Repr

/-- app.py line 35: `yield f"data: {msg} \n\n"` — note the space between the
message and the two newlines. -/
def frameOf (m : String) : String := "data: " ++ m ++ " \n\n"

/-- app.py line 45: `yield f'data: {{"data": "keepalive"}}\n\n'`. -/
def keepaliveFrame : String := "data: \x7b\"data\": \"keepalive\"\x7d\n\n"

/-- app.py `event_gen` main loop (lines 29-45). -/
def event_gen : List SEvent → List String × Bool
  | [] => ([], false)
  | SEvent.msg m :: rest =>
    if streamStop m then ([frameOf m], true)
    else (frameOf m :: (event_gen rest).1, (event_gen rest).2)
  | SEvent.timeout :: rest =>
    (keepaliveFrame :: (event_gen rest).1, (event_gen rest).2)

/-! ### Submit endpoint (app.py `run`, lines 67-87)

The body first raises `HTTPException(400, ...)` when a required field is
falsy, otherwise awaits `run_and_upload` (whose failure is an arbitrary
exception).  The surrounding `except Exception as e` catches *any* escaping
exception — the handler's own `HTTPException(400)` included — and raises
`HTTPException(500, str(e))`.  `strOf` stands for Python's `str(e)`. -/

inductive PyExc where
  | httpExc (status : Nat) (detail : String)
  | execExc (msg : String)
deriving DecidableEq, Repr

structure RunResp where
  status : String
  url : String
  conversation_id : String
deriving DecidableEq, Repr

/-- The `try` body of app.py `run` (lines 70-83); the Bool records whether
`run_and_upload` (and hence the subprocess) was started. -/
def runBody (conversation_id code : String) (exec : Except String String) :
    Except PyExc RunResp × Bool :=
  if conversation_id = "" || code = "" then
    (Except.error (PyExc.httpExc 400 "conversation_id and code are required"), false)
  else
    match exec with
    | Except.ok url => (Except.ok ⟨"success", url, conversation_id⟩, true)
    | Except.error m => (Except.error (PyExc.execExc m), true)

/-- app.py `run` (lines 67-87): the body wrapped in
`except Exception as e: raise HTTPException(status_code=500, detail=str(e))`. -/
def runEndpoint (strOf : PyExc → String) (conversation_id code : String)
    (exec : Except String String) : Except (Nat × String) RunResp × Bool :=
  match runBody conversation_id code exec with
  | (Except.ok r, s) => (Except.ok r, s)
  | (Except.error e, s) => (Except.error (500, strOf e), s)

/-- The disjunction of the six positive conditions of `extract_log`'s branch
chain (the spec's classifier rules 1-6; rule 7 is the final `else`). -/
def matchesAnyRule (line : String) : Bool :=
  (pyContains "Animation" line && pyContains "Partial" line)
    || reMatchAnimProg line.data
    || pyContains "File ready at" line
    || pyContains "Rendered ArchitectureDiagram" line
    || pyContains "Played" line
    || pyContains "ERROR" line
    || pyContains "Exception" line

/-! ## Theorems -/

example : extract_log "Animation 3: rendering 42%|something" = some "Animation 3 progress: 42%" := by
  decide

example : extract_log "... Animation 7 Partial ..." = some "Animation 7 loaded" := by
  decide

example : extract_log "  Played frame 9  " = some "Played frame 9" := by
  decide

-- Every message of the form `Error: {s}` (runner.py line 215) is terminal in
-- the spec's sense, whatever the exception text `s` is.
theorem isTerminalClaim_error_append (s : String) :
    isTerminalClaim ("Error: " ++ s) = true := by
  have hdata : ("Error: " ++ s).data
      = ['E', 'r', 'r', 'o', 'r', ':'] ++ (' ' :: s.data) := by
    rw [String.data_append]; rfl
  have hstrip : pyStripL (("Error: " ++ s).data)
      = stripTrailing (['E', 'r', 'r', 'o', 'r', ':'] ++ (' ' :: s.data)) := by
    rw [hdata]; rfl
  have hpre : ("error:").data.isPrefixOf
      ((pyStripL (("Error: " ++ s).data)).map Char.toLower) = true := by
    rw [hstrip]
    unfold stripTrailing
    rw [List.reverse_append, List.dropWhile_append]
    by_cases hb : ((' ' :: s.data).reverse.dropWhile isPyWS).isEmpty
    · rw [if_pos hb]
      decide
    · rw [if_neg hb]
      rw [List.reverse_append, List.reverse_reverse]
      rw [List.map_append]
      have : (['E', 'r', 'r', 'o', 'r', ':'] : List Char).map Char.toLower
          = ['e', 'r', 'r', 'o', 'r', ':'] := by decide
      rw [this]
      rw [List.isPrefixOf_iff_prefix]
      exact List.prefix_append _ _
  unfold isTerminalClaim pyStartsWith pyLower pyStrip
  rw [Bool.or_eq_true]
  right
  exact hpre

theorem isTerminalClaim_completion : isTerminalClaim completionSentinel = true := by decide

theorem isTerminalClaim_start : isTerminalClaim "Starting video generation..." = false := by
  decide

theorem isTerminalClaim_upload : isTerminalClaim "Uploading video..." = false := by decide

/-- Claim C2 (code_bug evaluation): submitting with an empty required field
does NOT signal a distinct client error.  The handler's own
`HTTPException(400)` is caught by its blanket `except Exception` and
re-raised as status 500 — the same status as a server-side execution
failure — though no subprocess is started for such a request. -/
theorem c2_clienterror_conflated_with_500 (strOf : PyExc → String)
    (exec : Except String String) (m : String) :
    (runEndpoint strOf "" "print(1)" exec).1
        = Except.error (500, strOf (PyExc.httpExc 400 "conversation_id and code are required"))
    ∧ (runEndpoint strOf "" "print(1)" exec).2 = false
    ∧ (runEndpoint strOf "valid-id" "print(1)" (Except.error m)).1
        = Except.error (500, strOf (PyExc.execExc m)) := by
  refine ⟨rfl, rfl, ?_⟩
  rfl

/-- Claim C3 (counterexample): `register` is not idempotent.  After a first
registration for `"j"` a queue (identity 0) is registered, yet registering
`"j"` again returns a different, freshly created queue (identity 1) instead
of the existing one. -/
theorem c3_register_not_idempotent :
    (register emptyRegistry "j").2.subscribers.lookup "j"
        = some (register emptyRegistry "j").1
    ∧ (register (register emptyRegistry "j").2 "j").1 ≠ (register emptyRegistry "j").1 := by
  decide

/-- Claim C3 (amended): `register` always creates a fresh queue (the next
unused identity) and installs it for the job id, replacing rather than
returning any existing queue. -/
theorem c3_register_creates_fresh (st : Registry) (id : String)
    (hwf : ∀ p ∈ st.queues, p.1 < st.nextQ) :
    (register st id).1 = st.nextQ
    ∧ (register st id).2.subscribers.lookup id = some st.nextQ
    ∧ ∀ p ∈ st.queues, p.1 ≠ (register st id).1 := by
  refine ⟨rfl, ?_, ?_⟩
  · simp [register, List.lookup_cons]
  · intro p hp
    exact Nat.ne_of_lt (hwf p hp)

/-- Witness for `c3_register_creates_fresh` at a concrete one-entry registry. -/
theorem c3_register_creates_fresh_witness :
    (∀ p ∈ (Registry.mk 1 [("j", 0)] [(0, [])]).queues,
        p.1 < (Registry.mk 1 [("j", 0)] [(0, [])]).nextQ)
    ∧ ((register (Registry.mk 1 [("j", 0)] [(0, [])]) "j").1
          = (Registry.mk 1 [("j", 0)] [(0, [])]).nextQ
       ∧ (register (Registry.mk 1 [("j", 0)] [(0, [])]) "j").2.subscribers.lookup "j"
          = some (Registry.mk 1 [("j", 0)] [(0, [])]).nextQ
       ∧ ∀ p ∈ (Registry.mk 1 [("j", 0)] [(0, [])]).queues,
          p.1 ≠ (register (Registry.mk 1 [("j", 0)] [(0, [])]) "j").1) :=
  ⟨by decide, c3_register_creates_fresh (Registry.mk 1 [("j", 0)] [(0, [])]) "j" (by decide)⟩

/-- Claim C5: publishing to a job id with no registered queue is a silent
no-op — the registry is returned unchanged (the model is a total function,
so nothing is raised and nothing blocks). -/
theorem c5_publish_unregistered_noop (st : Registry) (id msg : String)
    (h : st.subscribers.lookup id = none) :
    publish st id msg = st := by
  unfold publish
  rw [h]

/-- Witness for `c5_publish_unregistered_noop` on the empty registry. -/
theorem c5_publish_unregistered_noop_witness :
    (emptyRegistry.subscribers.lookup "job-1" = none)
    ∧ publish emptyRegistry "job-1" "hello" = emptyRegistry :=
  ⟨rfl, c5_publish_unregistered_noop emptyRegistry "job-1" "hello" rfl⟩

/-- Claim C10: the result and the published message sequence of
`run_and_upload` are independent of the `json_data` metadata mapping — the
body never consults it, so two calls differing only in that argument are
definitionally equal. -/
theorem c10_metadata_noninterference (cfg : Config) (conversation_id code : String)
    (j1 j2 : List (String × String)) (env : ExecEnv) :
    run_and_upload cfg conversation_id code j1 env
      = run_and_upload cfg conversation_id code j2 env := rfl

/-- Claim C7 (counterexample): the second half of the claim is stated for
*any* line containing both `"Animation 7"` and `"Partial"`, but the line
`"Animation 77 Partial"` contains both and is classified as
`"Animation 77 loaded"`, not `"Animation 7 loaded"` — the regex captures the
full digit run after the first `Animation `. -/
theorem c7_any_line_counterexample :
    pyContains "Animation 7" "Animation 77 Partial" = true
    ∧ pyContains "Partial" "Animation 77 Partial" = true
    ∧ extract_log "Animation 77 Partial" = some "Animation 77 loaded"
    ∧ ("Animation 77 loaded" : String) ≠ "Animation 7 loaded" := by
  decide

/-- Claim C7 (amended): `extract_log` maps
`"Animation 3: rendering 42%|something"` to `"Animation 3 progress: 42%"`,
and maps any line containing both `"Animation"` and `"Partial"` whose first
`Animation `-digit run is exactly `7` (such as `"... Animation 7 Partial ..."`)
to `"Animation 7 loaded"`. -/
theorem c7_classifier_examples :
    extract_log "Animation 3: rendering 42%|something" = some "Animation 3 progress: 42%"
    ∧ ∀ line, pyContains "Animation" line = true → pyContains "Partial" line = true →
        searchAnimNum line.data = some ['7'] →
        extract_log line = some "Animation 7 loaded" := by
  refine ⟨by decide, ?_⟩
  intro line h1 h2 h3
  unfold extract_log
  rw [h1, h2, h3]
  simp

/-- Witness for `c7_classifier_examples` at the claim's own example line. -/
theorem c7_classifier_examples_witness :
    (pyContains "Animation" "... Animation 7 Partial ..." = true
     ∧ pyContains "Partial" "... Animation 7 Partial ..." = true
     ∧ searchAnimNum ("... Animation 7 Partial ...").data = some ['7'])
    ∧ extract_log "... Animation 7 Partial ..." = some "Animation 7 loaded" :=
  ⟨⟨by decide, by decide, by decide⟩,
   c7_classifier_examples.2 "... Animation 7 Partial ..." (by decide) (by decide) (by decide)⟩

/-- Claim C8: the classifier is a total deterministic function of the line
alone (it is a plain Lean function, so it cannot raise), and every line on
which none of the six positive classifier rules fires is mapped to no
message. -/
theorem c8_no_rule_no_message (line : String) (h : matchesAnyRule line = false) :
    extract_log line = none := by
  unfold matchesAnyRule at h
  simp only [Bool.or_eq_false_iff, Bool.and_eq_false_iff] at h
  obtain ⟨⟨⟨⟨⟨⟨h1, h2⟩, h3⟩, h4⟩, h5⟩, h6⟩, h7⟩ := h
  unfold extract_log
  rcases h1 with h1 | h1 <;>
    simp [h1, h2, h3, h4, h5, h6, h7]

/-- Witness for `c8_no_rule_no_message` on an ordinary noise line. -/
theorem c8_no_rule_no_message_witness :
    (matchesAnyRule "hello world" = false)
    ∧ extract_log "hello world" = none :=
  ⟨by decide, c8_no_rule_no_message "hello world" (by decide)⟩

/-- Claim C9 (counterexample): the frame emitted for a forwarded message is
not exactly `data: <message>\n\n` — app.py line 35 writes a space between
the message and the two newlines, so forwarding `"hello"` yields
`"data: hello \n\n"`. -/
theorem c9_frame_shape_counterexample :
    event_gen [SEvent.msg "hello"] = (["data: hello \n\n"], false)
    ∧ ("data: hello \n\n" : String) ≠ "data: hello\n\n" := by
  decide

/-- Claim C9 (amended): every forwarded message `m` is emitted as the frame
`data: m \n\n` (one space between the message and the blank-line
terminator); every elapsed 30-second idle window emits the keepalive frame
`data: {"data": "keepalive"}\n\n` — whose payload is the JSON object
{"data":"keepalive"} — and leaves the stream open (the loop continues,
closing only when a later terminal message arrives). -/
theorem c9_frames_and_keepalive :
    (∀ m evs, (event_gen (SEvent.msg m :: evs)).1.head? = some ("data: " ++ m ++ " \n\n"))
    ∧ (∀ evs, event_gen (SEvent.timeout :: evs)
        = (keepaliveFrame :: (event_gen evs).1, (event_gen evs).2))
    ∧ keepaliveFrame = "data: " ++ "\x7b\"data\": \"keepalive\"\x7d" ++ "\n\n"
    ∧ event_gen [SEvent.timeout] = ([keepaliveFrame], false) := by
  refine ⟨?_, ?_, by decide, by decide⟩
  · intro m evs
    unfold event_gen frameOf
    by_cases h : streamStop m <;> simp [h]
  · intro evs
    rfl

/-- Claim C4: opening a second stream for a job id replaces the mapping with
a fresh queue.  After re-registration exactly one subscriber entry is live
for the id, it points at the new queue, and a subsequent publish enqueues
only on the new queue: the new queue receives the message while the orphaned
first queue's contents stay exactly as they were. -/
theorem c4_second_registration_replaces (st : Registry) (id : String) (q1 : Nat)
    (msg : String)
    (hq1 : st.subscribers.lookup id = some q1)
    (hlt : q1 < st.nextQ) :
    (register st id).1 ≠ q1
    ∧ (register st id).2.subscribers.lookup id = some (register st id).1
    ∧ ((register st id).2.subscribers.filter (fun p => p.1 == id)).length = 1
    ∧ (publish (register st id).2 id msg).queues.lookup (register st id).1 = some [msg]
    ∧ (publish (register st id).2 id msg).queues.lookup q1 = st.queues.lookup q1 := by
  have hne : ((q1 : Nat) == st.nextQ) = false :=
    beq_eq_false_iff_ne.mpr (Nat.ne_of_lt hlt)
  refine ⟨Ne.symm (Nat.ne_of_lt hlt), ?_, ?_, ?_, ?_⟩
  · simp [register, List.lookup_cons]
  · simp [register, List.filter_filter]
  · simp [publish, register, List.lookup_cons, updateQ]
  · simp [publish, register, List.lookup_cons, updateQ, hne]

/-- Witness for `c4_second_registration_replaces`: a registry whose queue 0
is registered for `"j"` and already holds one message. -/
theorem c4_second_registration_replaces_witness :
    ((Registry.mk 1 [("j", 0)] [(0, ["old"])]).subscribers.lookup "j" = some 0
     ∧ 0 < (Registry.mk 1 [("j", 0)] [(0, ["old"])]).nextQ)
    ∧ ((register (Registry.mk 1 [("j", 0)] [(0, ["old"])]) "j").1 ≠ 0
       ∧ (register (Registry.mk 1 [("j", 0)] [(0, ["old"])]) "j").2.subscribers.lookup "j"
          = some (register (Registry.mk 1 [("j", 0)] [(0, ["old"])]) "j").1
       ∧ ((register (Registry.mk 1 [("j", 0)] [(0, ["old"])]) "j").2.subscribers.filter
            (fun p => p.1 == "j")).length = 1
       ∧ (publish (register (Registry.mk 1 [("j", 0)] [(0, ["old"])]) "j").2 "j" "m").queues.lookup
            (register (Registry.mk 1 [("j", 0)] [(0, ["old"])]) "j").1 = some ["m"]
       ∧ (publish (register (Registry.mk 1 [("j", 0)] [(0, ["old"])]) "j").2 "j" "m").queues.lookup 0
          = (Registry.mk 1 [("j", 0)] [(0, ["old"])]).queues.lookup 0) :=
  ⟨⟨by decide, by decide⟩,
   c4_second_registration_replaces (Registry.mk 1 [("j", 0)] [(0, ["old"])]) "j" 0 "m"
     (by decide) (by decide)⟩

-- Branch characterizations of `run_and_upload`.
theorem runner_subprocess_fail (cfg : Config) (conversation_id code : String)
    (json_data : List (String × String)) (env : ExecEnv) (h0 : env.exitCode ≠ 0) :
    run_and_upload cfg conversation_id code json_data env
      = (Except.error env.cpeStr,
         ("Starting video generation..." :: env.lines.filterMap extract_log)
           ++ ["Error: " ++ env.cpeStr]) := by
  unfold run_and_upload
  simp [h0]

theorem runner_no_artifact (cfg : Config) (conversation_id code : String)
    (json_data : List (String × String)) (env : ExecEnv)
    (h0 : env.exitCode = 0) (ha : env.artifactFound = false) :
    run_and_upload cfg conversation_id code json_data env
      = (Except.error "No video file was generated",
         ("Starting video generation..." :: env.lines.filterMap extract_log)
           ++ ["Error: No video file was generated"]) := by
  unfold run_and_upload
  simp [h0, ha]

theorem runner_upload_fail (cfg : Config) (conversation_id code : String)
    (json_data : List (String × String)) (env : ExecEnv)
    (h0 : env.exitCode = 0) (ha : env.artifactFound = true) (hu : env.uploadOk = false) :
    run_and_upload cfg conversation_id code json_data env
      = (Except.error env.uploadErrStr,
         ("Starting video generation..." :: env.lines.filterMap extract_log)
           ++ ["Uploading video...", "Error: " ++ env.uploadErrStr]) := by
  unfold run_and_upload upload_to_supabase
  simp [h0, ha, hu]

theorem runner_success (cfg : Config) (conversation_id code : String)
    (json_data : List (String × String)) (env : ExecEnv)
    (h0 : env.exitCode = 0) (ha : env.artifactFound = true) (hu : env.uploadOk = true) :
    run_and_upload cfg conversation_id code json_data env
      = (Except.ok (cfg.supabase_url ++ "/storage/v1/object/public/"
            ++ cfg.supabase_bucket ++ "/" ++ conversation_id ++ ".mp4"),
         ("Starting video generation..." :: env.lines.filterMap extract_log)
           ++ ["Uploading video...", completionSentinel]) := by
  unfold run_and_upload upload_to_supabase
  simp [h0, ha, hu]

/-- Claim C1 (counterexample): an execution is not limited to one terminal
message.  If the subprocess prints the line `error: Played`, the classifier's
verbatim `Played` rule publishes it unchanged; its trimmed lowercase form
begins with `error:`, so it is terminal, yet the executor goes on to publish
`Uploading video...` and the completion sentinel — two terminal messages in
one execution, with further publications after the first. -/
theorem c1_two_terminals_counterexample :
    ((run_and_upload ⟨"u", "b"⟩ "j" "c" []
        ⟨["error: Played"], 0, true, true, "", ""⟩).2.filter isTerminalClaim).length = 2
    ∧ (run_and_upload ⟨"u", "b"⟩ "j" "c" []
        ⟨["error: Played"], 0, true, true, "", ""⟩).2
        = ["Starting video generation...", "error: Played",
           "Uploading video...", completionSentinel]
    ∧ isTerminalClaim "error: Played" = true := by
  decide

/-- Claim C1 (amended): provided no classifier-produced progress message is
itself terminal (which only a `Played` line echoed verbatim can be), every
execution publishes exactly one terminal message, that terminal message is
the last message published, and an exception reaching the outer boundary is
caught once, published as `Error: {message}`, and re-raised (the call's
result is that same error). -/
theorem c1_one_terminal_last (cfg : Config) (conversation_id code : String)
    (json_data : List (String × String)) (env : ExecEnv)
    (h : ∀ m ∈ env.lines.filterMap extract_log, isTerminalClaim m = false) :
    ((run_and_upload cfg conversation_id code json_data env).2.filter isTerminalClaim).length = 1
    ∧ (run_and_upload cfg conversation_id code json_data env).2.getLast?.any isTerminalClaim
        = true
    ∧ ∀ e, (run_and_upload cfg conversation_id code json_data env).1 = Except.error e →
        (run_and_upload cfg conversation_id code json_data env).2.getLast?
          = some ("Error: " ++ e) := by
  have hstart := isTerminalClaim_start
  have hprog : (env.lines.filterMap extract_log).filter isTerminalClaim = [] := by
    rw [List.filter_eq_nil_iff]
    intro a ha
    simp [h a ha]
  by_cases h0 : env.exitCode = 0
  · by_cases ha : env.artifactFound = true
    · by_cases hu : env.uploadOk = true
      · -- success: … ++ ["Uploading video...", completionSentinel]
        have hru := runner_success cfg conversation_id code json_data env h0 ha hu
        have hm2 : (run_and_upload cfg conversation_id code json_data env).2
            = "Starting video generation..."
                :: (env.lines.filterMap extract_log
                      ++ ["Uploading video...", completionSentinel]) := by
          rw [hru]
          rfl
        have hre : "Starting video generation..."
              :: (env.lines.filterMap extract_log
                    ++ ["Uploading video...", completionSentinel])
            = ("Starting video generation..."
                :: (env.lines.filterMap extract_log ++ ["Uploading video..."]))
              ++ [completionSentinel] := by
          simp
        refine ⟨?_, ?_, ?_⟩
        · rw [hm2]
          simp [List.filter_cons, List.filter_append, hstart, hprog,
            isTerminalClaim_upload, isTerminalClaim_completion]
        · rw [hm2, hre, List.getLast?_concat]
          simp [isTerminalClaim_completion]
        · intro e he
          rw [hru] at he
          simp at he
      · -- upload failure: … ++ ["Uploading video...", "Error: " ++ uploadErrStr]
        have hru := runner_upload_fail cfg conversation_id code json_data env h0 ha
          (Bool.eq_false_iff.mpr hu)
        have hm2 : (run_and_upload cfg conversation_id code json_data env).2
            = "Starting video generation..."
                :: (env.lines.filterMap extract_log
                      ++ ["Uploading video...", "Error: " ++ env.uploadErrStr]) := by
          rw [hru]
          rfl
        have hre : "Starting video generation..."
              :: (env.lines.filterMap extract_log
                    ++ ["Uploading video...", "Error: " ++ env.uploadErrStr])
            = ("Starting video generation..."
                :: (env.lines.filterMap extract_log ++ ["Uploading video..."]))
              ++ ["Error: " ++ env.uploadErrStr] := by
          simp
        refine ⟨?_, ?_, ?_⟩
        · rw [hm2]
          simp [List.filter_cons, List.filter_append, hstart, hprog,
            isTerminalClaim_upload, isTerminalClaim_error_append]
        · rw [hm2, hre, List.getLast?_concat]
          simp [isTerminalClaim_error_append]
        · intro e he
          rw [hru] at he
          simp only [Except.error.injEq] at he
          subst he
          rw [hm2, hre, List.getLast?_concat]
    · -- artifact missing: … ++ ["Error: No video file was generated"]
      have hterm : isTerminalClaim "Error: No video file was generated" = true := by
        decide
      have hru := runner_no_artifact cfg conversation_id code json_data env h0
        (Bool.eq_false_iff.mpr ha)
      have hm2 : (run_and_upload cfg conversation_id code json_data env).2
          = "Starting video generation..."
              :: (env.lines.filterMap extract_log
                    ++ ["Error: No video file was generated"]) := by
        rw [hru]
        rfl
      have hre : "Starting video generation..."
            :: (env.lines.filterMap extract_log ++ ["Error: No video file was generated"])
          = ("Starting video generation..." :: env.lines.filterMap extract_log)
            ++ ["Error: No video file was generated"] := by
        simp
      refine ⟨?_, ?_, ?_⟩
      · rw [hm2]
        simp [List.filter_cons, List.filter_append, hstart, hprog, hterm]
      · rw [hm2, hre, List.getLast?_concat]
        simp [hterm]
      · intro e he
        rw [hru] at he
        simp only [Except.error.injEq] at he
        subst he
        rw [hm2, hre, List.getLast?_concat]
        decide
  · -- subprocess failure: … ++ ["Error: " ++ cpeStr]
    have hru := runner_subprocess_fail cfg conversation_id code json_data env h0
    have hm2 : (run_and_upload cfg conversation_id code json_data env).2
        = "Starting video generation..."
            :: (env.lines.filterMap extract_log ++ ["Error: " ++ env.cpeStr]) := by
      rw [hru]
      rfl
    have hre : "Starting video generation..."
          :: (env.lines.filterMap extract_log ++ ["Error: " ++ env.cpeStr])
        = ("Starting video generation..." :: env.lines.filterMap extract_log)
          ++ ["Error: " ++ env.cpeStr] := by
      simp
    refine ⟨?_, ?_, ?_⟩
    · rw [hm2]
      simp [List.filter_cons, List.filter_append, hstart, hprog,
        isTerminalClaim_error_append]
    · rw [hm2, hre, List.getLast?_concat]
      simp [isTerminalClaim_error_append]
    · intro e he
      rw [hru] at he
      simp only [Except.error.injEq] at he
      subst he
      rw [hm2, hre, List.getLast?_concat]

/-- Witness for `c1_one_terminal_last`: a successful run whose only
subprocess line is classified to the non-terminal `Played demo`. -/
theorem c1_one_terminal_last_witness :
    (∀ m ∈ (ExecEnv.mk ["Played demo"] 0 true true "" "").lines.filterMap extract_log,
        isTerminalClaim m = false)
    ∧ (((run_and_upload ⟨"u", "b"⟩ "j" "c" []
          (ExecEnv.mk ["Played demo"] 0 true true "" "")).2.filter isTerminalClaim).length = 1
       ∧ (run_and_upload ⟨"u", "b"⟩ "j" "c" []
          (ExecEnv.mk ["Played demo"] 0 true true "" "")).2.getLast?.any isTerminalClaim = true
       ∧ ∀ e, (run_and_upload ⟨"u", "b"⟩ "j" "c" []
            (ExecEnv.mk ["Played demo"] 0 true true "" "")).1 = Except.error e →
          (run_and_upload ⟨"u", "b"⟩ "j" "c" []
            (ExecEnv.mk ["Played demo"] 0 true true "" "")).2.getLast?
            = some ("Error: " ++ e)) :=
  ⟨by decide,
   c1_one_terminal_last ⟨"u", "b"⟩ "j" "c" [] (ExecEnv.mk ["Played demo"] 0 true true "" "")
     (by decide)⟩

theorem streamStop_start : streamStop "Starting video generation..." = false := by decide

theorem streamStop_upload : streamStop "Uploading video..." = false := by decide

theorem streamStop_completion : streamStop completionSentinel = true := by decide

-- The streaming loop forwards a block of non-terminal messages one frame
-- each and keeps going.
theorem event_gen_consume (ms : List String) (evs : List SEvent)
    (hms : ∀ m ∈ ms, streamStop m = false) :
    event_gen (ms.map SEvent.msg ++ evs)
      = (ms.map frameOf ++ (event_gen evs).1, (event_gen evs).2) := by
  induction ms with
  | nil => simp
  | cons m rest ih =>
    have hm : streamStop m = false := hms m (List.mem_cons_self m rest)
    have hrest : ∀ x ∈ rest, streamStop x = false :=
      fun x hx => hms x (List.mem_cons_of_mem m hx)
    simp [event_gen, hm, ih hrest]

/-- Claim C6 (counterexample): on a successful execution whose subprocess
printed the line `error: Played`, the classifier republishes it verbatim;
the stream treats it as terminal and closes there, so although the
completion sentinel is the last message published, the stream never forwards
it — refuting "closes the stream immediately after forwarding the completion
sentinel". -/
theorem c6_close_counterexample :
    (run_and_upload ⟨"u", "b"⟩ "j" "c" [] ⟨["error: Played"], 0, true, true, "", ""⟩).2.getLast?
        = some completionSentinel
    ∧ (event_gen ((run_and_upload ⟨"u", "b"⟩ "j" "c" []
          ⟨["error: Played"], 0, true, true, "", ""⟩).2.map SEvent.msg)).2 = true
    ∧ (event_gen ((run_and_upload ⟨"u", "b"⟩ "j" "c" []
          ⟨["error: Played"], 0, true, true, "", ""⟩).2.map SEvent.msg)).1.getLast?
        ≠ some (frameOf completionSentinel) := by
  decide

/-- Claim C6 (amended): on every successful execution with a subscriber
registered throughout, the published sequence is exactly: start notice,
the classifier-produced progress notices in order, the upload notice, the
completion sentinel; and provided none of the progress notices is itself
terminal for the stream, the streaming endpoint forwards every message one
frame each and closes immediately after forwarding the completion-sentinel
frame. -/
theorem c6_success_order_and_close (cfg : Config) (conversation_id code : String)
    (json_data : List (String × String)) (env : ExecEnv)
    (h0 : env.exitCode = 0) (ha : env.artifactFound = true) (hu : env.uploadOk = true)
    (h : ∀ m ∈ env.lines.filterMap extract_log, streamStop m = false) :
    (run_and_upload cfg conversation_id code json_data env).2
      = "Starting video generation..."
          :: (env.lines.filterMap extract_log
                ++ ["Uploading video...", completionSentinel])
    ∧ event_gen ((run_and_upload cfg conversation_id code json_data env).2.map SEvent.msg)
      = ((run_and_upload cfg conversation_id code json_data env).2.map frameOf, true) := by
  have hru := runner_success cfg conversation_id code json_data env h0 ha hu
  have hm2 : (run_and_upload cfg conversation_id code json_data env).2
      = "Starting video generation..."
          :: (env.lines.filterMap extract_log
                ++ ["Uploading video...", completionSentinel]) := by
    rw [hru]
    rfl
  refine ⟨hm2, ?_⟩
  rw [hm2]
  have hall : ∀ m ∈ ("Starting video generation..."
        :: (env.lines.filterMap extract_log ++ ["Uploading video..."])),
      streamStop m = false := by
    intro m hm
    rcases List.mem_cons.mp hm with rfl | hm'
    · exact streamStop_start
    · rcases List.mem_append.mp hm' with hm'' | hm''
      · exact h m hm''
      · rcases List.mem_singleton.mp hm'' with rfl
        exact streamStop_upload
  have hre : ("Starting video generation..."
        :: (env.lines.filterMap extract_log
              ++ ["Uploading video...", completionSentinel])).map SEvent.msg
      = ("Starting video generation..."
          :: (env.lines.filterMap extract_log ++ ["Uploading video..."])).map SEvent.msg
        ++ [SEvent.msg completionSentinel] := by
    simp
  rw [hre, event_gen_consume _ _ hall]
  have hlast : event_gen [SEvent.msg completionSentinel]
      = ([frameOf completionSentinel], true) := by
    simp [event_gen, streamStop_completion]
  rw [hlast]
  simp

/-- Witness for `c6_success_order_and_close`: a successful run with one
classified, non-terminal progress message. -/
theorem c6_success_order_and_close_witness :
    ((ExecEnv.mk ["Played demo2"] 0 true true "" "").exitCode = 0
     ∧ (ExecEnv.mk ["Played demo2"] 0 true true "" "").artifactFound = true
     ∧ (ExecEnv.mk ["Played demo2"] 0 true true "" "").uploadOk = true
     ∧ ∀ m ∈ (ExecEnv.mk ["Played demo2"] 0 true true "" "").lines.filterMap extract_log,
        streamStop m = false)
    ∧ ((run_and_upload ⟨"u", "b"⟩ "j" "c" [] (ExecEnv.mk ["Played demo2"] 0 true true "" "")).2
        = "Starting video generation..."
            :: ((ExecEnv.mk ["Played demo2"] 0 true true "" "").lines.filterMap extract_log
                  ++ ["Uploading video...", completionSentinel])
       ∧ event_gen ((run_and_upload ⟨"u", "b"⟩ "j" "c" []
            (ExecEnv.mk ["Played demo2"] 0 true true "" "")).2.map SEvent.msg)
        = ((run_and_upload ⟨"u", "b"⟩ "j" "c" []
            (ExecEnv.mk ["Played demo2"] 0 true true "" "")).2.map frameOf, true)) :=
  ⟨⟨rfl, rfl, rfl, by decide⟩,
   c6_success_order_and_close ⟨"u", "b"⟩ "j" "c" []
     (ExecEnv.mk ["Played demo2"] 0 true true "" "") rfl rfl rfl (by decide)⟩
